import Mathlib

/-!
Verification development for the Sentinel REST deployment script
(`deploy_rest.py`).  The Python program is shallowly embedded below:
HTTP traffic is represented by oracles mapping each request (or each
poll attempt, indexed by attempt number) to its outcome, pure helpers
are translated directly, and the two polling loops are modelled as
fuel-indexed recursions whose guard mirrors the wall-clock check of the
source under the time model "each `time.sleep(interval)` advances time
by `interval`, everything else is instantaneous", so that elapsed time
before poll attempt `k` is `k * interval`.
-/

namespace DeployRest

/-- Minimal model of parsed JSON documents as produced by
`response.json()` and `json.load` in the source. -/
inductive Json where
  | null
  | bool (b : Bool)
  | num (n : Int)
  | str (s : String)
  | arr (elts : List Json)
  | obj (fields : List (String × Json))
deriving Repr

/-- Python truthiness of a JSON value, used by the source in
`if result:` and `if location:` tests. -/
def Json.truthy : Json → Bool
  | .null => false
  | .bool b => b
  | .num n => n != 0
  | .str s => s != ""
  | .arr l => !l.isEmpty
  | .obj f => !f.isEmpty

/-- `d.get(key)` on a JSON mapping; `none` models Python `None`.
Looking a key up in a non-mapping value would raise in the source and
is modelled as a missing key (no claim exercises that case). -/
def Json.lookup : Json → String → Option Json
  | .obj fields, k => List.lookup k fields
  | _, _ => none

/-- Whether a JSON value is a mapping (a Python `dict`). -/
def Json.isObj : Json → Bool
  | .obj _ => true
  | _ => false

/-- Outcome of one `requests` call: either a raised
`requests.exceptions.RequestException` (transport-level failure), or a
response carrying a status code, the optional `Location` header, and
the parsed JSON body. -/
inductive HttpResult where
  | exn
  | resp (status_code : Nat) (location : Option String) (body : Json)

/-- `response.raise_for_status()` raises `HTTPError` (a
`RequestException`) exactly for client- and server-error codes. -/
def isHttpError (status_code : Nat) : Bool :=
  400 ≤ status_code && status_code < 600

/-- `result.get('properties', dict()).get('provisioningState')` as read
by `_poll_deployment` and `deploy_template`; a missing key yields
`none` (Python `None`).  A non-string state value, impossible in the
control-plane protocol, is modelled as a missing key. -/
def provisioningState (body : Json) : Option String :=
  match body.lookup "properties" with
  | some p =>
    match p.lookup "provisioningState" with
    | some (.str s) => some s
    | _ => none
  | none => none

/-- `status in ['Succeeded', 'Failed', 'Canceled']`. -/
def isTerminal (status : Option String) : Bool :=
  status == some "Succeeded" || status == some "Failed" || status == some "Canceled"

/-- The while-loop of `AzureRestDeployer._poll_deployment`.  `fetch k`
is the outcome of the `k`-th `requests.get` on the deployment resource
path.  Under the time model described above the loop guard
`time.time() - start_time < timeout` before attempt `k` is
`k * poll_interval < timeout`.  `fuel` bounds the recursion; the
wrapper passes more fuel than the guard ever allows iterations, so the
fuel never runs out first.  Returns the function's result, the list of
status values printed as progress notifications, and the number of
status fetches issued. -/
def pollDeploymentGo (fetch : Nat → HttpResult) (timeout poll_interval : Nat) :
    Nat → Nat → Option String → Option Json × List (Option String) × Nat
  | 0, _, _ => (none, [], 0)
  | fuel + 1, k, last_status =>
    if k * poll_interval < timeout then
      match fetch k with
      | .exn => (none, [], 1)
      | .resp s _ body =>
        if isHttpError s then (none, [], 1)
        else
          let status := provisioningState body
          let notifs := if status == last_status then [] else [status]
          if isTerminal status then (some body, notifs, 1)
          else
            let r := pollDeploymentGo fetch timeout poll_interval fuel (k + 1) status
            (r.1, notifs ++ r.2.1, r.2.2 + 1)
    else (none, [], 0)

/-- `AzureRestDeployer._poll_deployment` at its default budget:
`timeout = 1800`, `poll_interval = 10`, starting with
`last_status = None`.  Fuel `1801` exceeds the at most
`1800 / 10 = 180` iterations the guard permits. -/
def pollDeployment (fetch : Nat → HttpResult) :
    Option Json × List (Option String) × Nat :=
  pollDeploymentGo fetch 1800 10 1801 0 none

/-- The while-loop of `AzureRestDeployer._poll_async_operation`:
status 200 returns the body, 202 sleeps and continues, any other
status returns `None`; a transport exception returns `None`.  Returns
the result and the number of fetches issued. -/
def pollAsyncGo (fetch : Nat → HttpResult) (timeout poll_interval : Nat) :
    Nat → Nat → Option Json × Nat
  | 0, _ => (none, 0)
  | fuel + 1, k =>
    if k * poll_interval < timeout then
      match fetch k with
      | .exn => (none, 1)
      | .resp s _ body =>
        if s == 200 then (some body, 1)
        else if s == 202 then
          let r := pollAsyncGo fetch timeout poll_interval fuel (k + 1)
          (r.1, r.2 + 1)
        else (none, 1)
    else (none, 0)

/-- `AzureRestDeployer._poll_async_operation` at its default budget:
`timeout = 300`, `poll_interval = 5` (at most `300 / 5 = 60`
iterations). -/
def pollAsync (fetch : Nat → HttpResult) : Option Json × Nat :=
  pollAsyncGo fetch 300 5 301 0

/-- A fetch outcome on which `_poll_deployment` keeps looping: a
response that neither raises in `raise_for_status` nor carries a
terminal provisioning state. -/
def deployContinues : HttpResult → Bool
  | .exn => false
  | .resp s _ body => !isHttpError s && !isTerminal (provisioningState body)

/-- A fetch outcome on which `_poll_async_operation` keeps looping: a
202 response. -/
def asyncPending : HttpResult → Bool
  | .exn => false
  | .resp s _ _ => s == 202

/-- Outcome of one `credential.get_token` call in `authenticate`. -/
inductive TokenOutcome where
  | token (t : String)
  | authError
  | otherError
deriving DecidableEq, Repr

/-- `AzureRestDeployer.authenticate`, instrumented: returns the `bool`
the source returns together with whether the `DefaultAzureCredential`
fallback was attempted.  The primary `AzureCliCredential` attempt falls
back only on `ClientAuthenticationError`; any other exception (and any
exception of the fallback itself) reaches the outer handler, which
returns `False`. -/
def authenticateTrace : TokenOutcome → TokenOutcome → Bool × Bool
  | .token _, _ => (true, false)
  | .authError, .token _ => (true, true)
  | .authError, _ => (false, true)
  | .otherError, _ => (false, false)

/-- `AzureRestDeployer.check_resource_group_exists`: `True` iff the
lookup response has status 200; any other status, and any raised
`RequestException`, yields `False`. -/
def check_resource_group_exists (lookup : HttpResult) : Bool :=
  match lookup with
  | .exn => false
  | .resp s _ _ => s == 200

/-- `AzureRestDeployer.create_resource_group`: `True` unless the `PUT`
raises, including via `raise_for_status`. -/
def create_resource_group (r : HttpResult) : Bool :=
  match r with
  | .exn => false
  | .resp s _ _ => !isHttpError s

/-- `AzureRestDeployer.get_subscription_info`. -/
def get_subscription_info (r : HttpResult) : Option Json :=
  match r with
  | .exn => none
  | .resp s _ body => if isHttpError s then none else some body

/-- Substring occurrence test on character lists, for Python's
`'parameters' in s` when `s` is a string. -/
def matchesAt : List Char → List Char → Bool
  | [], _ => true
  | _ :: _, [] => false
  | p :: ps, c :: cs => p == c && matchesAt ps cs

/-- Whether `pat` occurs contiguously inside `s`. -/
def containsRun (pat : List Char) : List Char → Bool
  | [] => matchesAt pat []
  | s@(_ :: cs) => matchesAt pat s || containsRun pat cs

/-- `load_parameters`, applied to an already-parsed document.  The
source tests `'parameters' in params` (a key test on a `dict`, element
membership on a `list`, substring on a `str`, and a `TypeError` —
caught by the blanket `except`, hence `None` — otherwise); when present
it rebuilds the mapping from `v.get('value')` per entry, where a
non-`dict` entry value or a non-`dict` `params['parameters']` raises
and the blanket `except` returns `None`; when absent the document is
returned unchanged. -/
def load_parameters (doc : Json) : Option Json :=
  match doc with
  | .obj fields =>
    if fields.any (fun kv => kv.1 == "parameters") then
      match List.lookup "parameters" fields with
      | some (.obj inner) =>
        if inner.all (fun kv => kv.2.isObj) then
          some (.obj (inner.map (fun kv => (kv.1, (kv.2.lookup "value").getD .null))))
        else none
      | _ => none
    else some (.obj fields)
  | .str s =>
    if containsRun "parameters".toList s.toList then none else some (.str s)
  | .arr elts =>
    if elts.any (fun e => match e with | .str s => s == "parameters" | _ => false) then
      none
    else some (.arr elts)
  | _ => none

/-- `AzureRestDeployer.validate_deployment`, given the outcome of the
what-if `POST` and the fetch oracle for the follow-up polling.  Returns
the `bool` the source returns and the number of poll fetches issued. -/
def validate_deployment (post : HttpResult) (pollFetch : Nat → HttpResult) :
    Bool × Nat :=
  match post with
  | .exn => (false, 0)
  | .resp s loc body =>
    if isHttpError s then (false, 0)
    else if s == 202 then
      match loc with
      | some l =>
        if l == "" then (false, 0)
        else
          let r := pollAsync pollFetch
          match r.1 with
          | some j => (j.truthy, r.2)
          | none => (false, r.2)
      | none => (false, 0)
    else
      let _ := body
      (true, 0)

/-- `AzureRestDeployer.deploy_template`, given the outcome of the
deployment `PUT` and the fetch oracle for `_poll_deployment`.  The
result is returned only when it is truthy and its provisioning state is
`Succeeded`. -/
def deploy_template (put : HttpResult) (pollFetch : Nat → HttpResult) :
    Option Json :=
  match put with
  | .exn => none
  | .resp s _ _ =>
    if isHttpError s then none
    else
      match (pollDeployment pollFetch).1 with
      | some j =>
        if j.truthy && (provisioningState j == some "Succeeded") then some j
        else none
      | none => none

/-- `AzureRestDeployer.get_deployment_outputs`:
`result.get('properties', dict()).get('outputs', dict())` on success. -/
def get_deployment_outputs (r : HttpResult) : Option Json :=
  match r with
  | .exn => none
  | .resp s _ body =>
    if isHttpError s then none
    else some (((body.lookup "properties").getD (.obj [])).lookup "outputs" |>.getD (.obj []))

/-- Subscription-id resolution at the top of `main`: an absent or empty
`-s` argument (Python falsiness of `args.subscription_id`) falls back
to `az account show`; `none` for the latter models
`CalledProcessError`. -/
def resolve_subscription_id (arg az_account_show : Option String) : Option String :=
  match arg with
  | some s => if s == "" then az_account_show else some s
  | none => az_account_show

/-- The environment of one `main` invocation: command-line inputs,
filesystem facts, and the outcome of each external call `main` (or a
helper it calls) performs, in program order. -/
structure MainEnv where
  subscription_id_arg : Option String
  az_account_show : Option String
  primary : TokenOutcome
  fallback : TokenOutcome
  sub_info_http : HttpResult
  parameter_file_exists : Bool
  parameter_doc : Option Json
  rg_lookup : HttpResult
  rg_create : HttpResult
  bicep_file_exists : Bool
  compile_result : Option Json
  what_if : Bool
  submit_http : HttpResult
  poll_fetch : Nat → HttpResult
  outputs_http : HttpResult

/-- `main`, returning the process exit code.  `compile_result = none`
models `az bicep build` failing (`CalledProcessError` or unparsable
output); `parameter_doc = none` models `open`/`json.load` raising
inside `load_parameters`.  Building `arm_parameters` from a non-mapping
parameter document raises an uncaught exception, which also ends the
process with exit code 1. -/
def main (e : MainEnv) : Nat :=
  match resolve_subscription_id e.subscription_id_arg e.az_account_show with
  | none => 1
  | some _ =>
    if (authenticateTrace e.primary e.fallback).1 then
      let _ := get_subscription_info e.sub_info_http
      if e.parameter_file_exists then
        match e.parameter_doc.bind load_parameters with
        | none => 1
        | some params =>
          match params with
          | .obj _ =>
            if !check_resource_group_exists e.rg_lookup
                && !create_resource_group e.rg_create then 1
            else if !e.bicep_file_exists then 1
            else
              match e.compile_result with
              | none => 1
              | some _ =>
                if e.what_if then
                  let _ := validate_deployment e.submit_http e.poll_fetch
                  0
                else
                  match deploy_template e.submit_http e.poll_fetch with
                  | some _ =>
                    let _ := get_deployment_outputs e.outputs_http
                    0
                  | none => 1
          | _ => 1
      else 1
    else 1

/-- The stages of `main` before the what-if/deploy branch that can
abort the run with exit code 1. -/
def preStagesOk (e : MainEnv) : Bool :=
  (resolve_subscription_id e.subscription_id_arg e.az_account_show).isSome
  && (authenticateTrace e.primary e.fallback).1
  && e.parameter_file_exists
  && (match e.parameter_doc.bind load_parameters with
      | some (.obj _) => true
      | _ => false)
  && (check_resource_group_exists e.rg_lookup || create_resource_group e.rg_create)
  && e.bicep_file_exists
  && e.compile_result.isSome



/-! Concrete fixtures used to instantiate the theorems below. -/

/-- A deployment-status body in the transient `Running` state. -/
def runningBody : Json :=
  .obj [("properties", .obj [("provisioningState", .str "Running")])]

/-- A deployment-status body in the terminal `Succeeded` state. -/
def succeededBody : Json :=
  .obj [("properties", .obj [("provisioningState", .str "Succeeded")])]

/-- A deployment-status body in the terminal `Failed` state. -/
def failedBody : Json :=
  .obj [("properties", .obj [("provisioningState", .str "Failed")])]

/-- A status-fetch oracle that always reports `Running`. -/
def alwaysRunning : Nat → HttpResult := fun _ => .resp 200 none runningBody

/-- A follow-up fetch oracle that always answers 202. -/
def alwaysPending : Nat → HttpResult := fun _ => .resp 202 none (.obj [])

/-- A status-fetch oracle whose second attempt raises a transport
exception. -/
def exnAfterRunning : Nat → HttpResult :=
  fun k => if k = 0 then .resp 200 none runningBody else .exn

/-- A follow-up fetch oracle whose second attempt raises a transport
exception. -/
def exnAfterPending : Nat → HttpResult :=
  fun k => if k = 0 then .resp 202 none (.obj []) else .exn


/-- An environment in which every stage up to the operation selection
succeeds, the run is in what-if mode, and the validation submission
raises a transport exception. -/
def whatIfFailEnv : MainEnv where
  subscription_id_arg := some "sub"
  az_account_show := none
  primary := .token "tok"
  fallback := .otherError
  sub_info_http := .resp 200 none (.obj [("displayName", .str "Sub")])
  parameter_file_exists := true
  parameter_doc := some (.obj [("x", .num 5)])
  rg_lookup := .resp 200 none (.obj [])
  rg_create := .exn
  bicep_file_exists := true
  compile_result := some (.obj [("resources", .arr [])])
  what_if := true
  submit_http := .exn
  poll_fetch := fun _ => .exn
  outputs_http := .exn

/-! Helper lemmas about the two poll loops. -/

theorem pollDeploymentGo_count_le (fetch : Nat → HttpResult) :
    ∀ fuel k last, (pollDeploymentGo fetch 1800 10 fuel k last).2.2 ≤ 180 - k := by
  intro fuel
  induction fuel with
  | zero => intro k last; simp [pollDeploymentGo]
  | succ n ih =>
    intro k last
    by_cases hk : k * 10 < 1800
    · have hk180 : k < 180 := by omega
      rcases hf : fetch k with _ | ⟨s, loc, body⟩
      · simp [pollDeploymentGo, hk, hf]
        omega
      · by_cases hs : isHttpError s = true
        · simp [pollDeploymentGo, hk, hf, hs]
          omega
        · by_cases ht : isTerminal (provisioningState body) = true
          · simp [pollDeploymentGo, hk, hf, hs, ht]
            omega
          · have hrec := ih (k + 1) (provisioningState body)
            simp [pollDeploymentGo, hk, hf, hs, ht]
            omega
    · simp [pollDeploymentGo, hk]

theorem pollDeploymentGo_count_pos (fetch : Nat → HttpResult) (fuel k : Nat)
    (last : Option String) (hk : k * 10 < 1800) :
    1 ≤ (pollDeploymentGo fetch 1800 10 (fuel + 1) k last).2.2 := by
  rcases hf : fetch k with _ | ⟨s, loc, body⟩
  · simp [pollDeploymentGo, hk, hf]
  · by_cases hs : isHttpError s = true
    · simp [pollDeploymentGo, hk, hf, hs]
    · by_cases ht : isTerminal (provisioningState body) = true
      · simp [pollDeploymentGo, hk, hf, hs, ht]
      · simp [pollDeploymentGo, hk, hf, hs, ht]

theorem pollDeploymentGo_exn (fetch : Nat → HttpResult) (kd : Nat)
    (hkd : kd < 180) (hexn : fetch kd = .exn) :
    ∀ fuel k last, k ≤ kd → kd - k < fuel →
      (∀ i, k ≤ i → i < kd → deployContinues (fetch i) = true) →
      (pollDeploymentGo fetch 1800 10 fuel k last).1 = none ∧
      (pollDeploymentGo fetch 1800 10 fuel k last).2.2 = kd - k + 1 := by
  intro fuel
  induction fuel with
  | zero => intro k last hk hfuel _; omega
  | succ n ih =>
    intro k last hk hfuel hcont
    have hguard : k * 10 < 1800 := by omega
    by_cases hkk : k = kd
    · subst hkk
      simp [pollDeploymentGo, hguard, hexn]
    · have hklt : k < kd := by omega
      have hc := hcont k le_rfl hklt
      rcases hf : fetch k with _ | ⟨s, loc, body⟩
      · rw [hf] at hc; simp [deployContinues] at hc
      · rw [hf] at hc
        simp [deployContinues] at hc
        obtain ⟨hs, ht⟩ := hc
        have hrec := ih (k + 1) (provisioningState body) (by omega) (by omega)
          (fun i hi1 hi2 => hcont i (by omega) hi2)
        simp [pollDeploymentGo, hguard, hf, hs, ht]
        exact ⟨hrec.1, by omega⟩

theorem pollDeploymentGo_timeout (fetch : Nat → HttpResult)
    (hcont : ∀ i, i < 180 → deployContinues (fetch i) = true) :
    ∀ fuel k last, 180 - k < fuel →
      (pollDeploymentGo fetch 1800 10 fuel k last).1 = none ∧
      (pollDeploymentGo fetch 1800 10 fuel k last).2.2 = 180 - k := by
  intro fuel
  induction fuel with
  | zero => intro k last hfuel; omega
  | succ n ih =>
    intro k last hfuel
    by_cases hk : k < 180
    · have hguard : k * 10 < 1800 := by omega
      have hc := hcont k hk
      rcases hf : fetch k with _ | ⟨s, loc, body⟩
      · rw [hf] at hc; simp [deployContinues] at hc
      · rw [hf] at hc
        simp [deployContinues] at hc
        obtain ⟨hs, ht⟩ := hc
        have hrec := ih (k + 1) (provisioningState body) (by omega)
        simp [pollDeploymentGo, hguard, hf, hs, ht]
        exact ⟨hrec.1, by omega⟩
    · have hguard : ¬ (k * 10 < 1800) := by omega
      simp [pollDeploymentGo, hguard]
      omega

theorem pollDeploymentGo_terminal (fetch : Nat → HttpResult) (kd s : Nat)
    (loc : Option String) (body : Json) (hkd : kd < 180)
    (hf : fetch kd = .resp s loc body) (hs : isHttpError s = false)
    (ht : isTerminal (provisioningState body) = true) :
    ∀ fuel k last, k ≤ kd → kd - k < fuel →
      (∀ i, k ≤ i → i < kd → deployContinues (fetch i) = true) →
      (pollDeploymentGo fetch 1800 10 fuel k last).1 = some body ∧
      (pollDeploymentGo fetch 1800 10 fuel k last).2.2 = kd - k + 1 := by
  intro fuel
  induction fuel with
  | zero => intro k last hk hfuel _; omega
  | succ n ih =>
    intro k last hk hfuel hcont
    have hguard : k * 10 < 1800 := by omega
    by_cases hkk : k = kd
    · subst hkk
      simp [pollDeploymentGo, hguard, hf, hs, ht]
    · have hklt : k < kd := by omega
      have hc := hcont k le_rfl hklt
      rcases hfk : fetch k with _ | ⟨s2, loc2, body2⟩
      · rw [hfk] at hc; simp [deployContinues] at hc
      · rw [hfk] at hc
        simp [deployContinues] at hc
        obtain ⟨hs2, ht2⟩ := hc
        have hrec := ih (k + 1) (provisioningState body2) (by omega) (by omega)
          (fun i hi1 hi2 => hcont i (by omega) hi2)
        simp [pollDeploymentGo, hguard, hfk, hs2, ht2]
        exact ⟨hrec.1, by omega⟩

theorem pollDeploymentGo_some_isTerminal (fetch : Nat → HttpResult) :
    ∀ fuel k last b, (pollDeploymentGo fetch 1800 10 fuel k last).1 = some b →
      isTerminal (provisioningState b) = true := by
  intro fuel
  induction fuel with
  | zero => intro k last b h; simp [pollDeploymentGo] at h
  | succ n ih =>
    intro k last b h
    by_cases hk : k * 10 < 1800
    · rcases hf : fetch k with _ | ⟨s, loc, body⟩
      · simp [pollDeploymentGo, hk, hf] at h
      · by_cases hs : isHttpError s = true
        · simp [pollDeploymentGo, hk, hf, hs] at h
        · by_cases ht : isTerminal (provisioningState body) = true
          · simp [pollDeploymentGo, hk, hf, hs, ht] at h
            rw [← h]
            exact ht
          · simp [pollDeploymentGo, hk, hf, hs, ht] at h
            exact ih (k + 1) (provisioningState body) b h
    · simp [pollDeploymentGo, hk] at h


theorem pollAsyncGo_count_le (fetch : Nat → HttpResult) :
    ∀ fuel k, (pollAsyncGo fetch 300 5 fuel k).2 ≤ 60 - k := by
  intro fuel
  induction fuel with
  | zero => intro k; simp [pollAsyncGo]
  | succ n ih =>
    intro k
    by_cases hk : k * 5 < 300
    · have hk60 : k < 60 := by omega
      rcases hf : fetch k with _ | ⟨s, loc, body⟩
      · simp [pollAsyncGo, hk, hf]
        omega
      · by_cases h200 : s = 200
        · simp [pollAsyncGo, hk, hf, h200]
          omega
        · by_cases h202 : s = 202
          · have hrec := ih (k + 1)
            simp [pollAsyncGo, hk, hf, h200, h202]
            omega
          · simp [pollAsyncGo, hk, hf, h200, h202]
            omega
    · simp [pollAsyncGo, hk]

theorem pollAsyncGo_count_pos (fetch : Nat → HttpResult) (fuel k : Nat)
    (hk : k * 5 < 300) :
    1 ≤ (pollAsyncGo fetch 300 5 (fuel + 1) k).2 := by
  rcases hf : fetch k with _ | ⟨s, loc, body⟩
  · simp [pollAsyncGo, hk, hf]
  · by_cases h200 : s = 200
    · simp [pollAsyncGo, hk, hf, h200]
    · by_cases h202 : s = 202
      · simp [pollAsyncGo, hk, hf, h200, h202]
      · simp [pollAsyncGo, hk, hf, h200, h202]

theorem pollAsyncGo_exn (fetch : Nat → HttpResult) (kd : Nat)
    (hkd : kd < 60) (hexn : fetch kd = .exn) :
    ∀ fuel k, k ≤ kd → kd - k < fuel →
      (∀ i, k ≤ i → i < kd → asyncPending (fetch i) = true) →
      (pollAsyncGo fetch 300 5 fuel k).1 = none ∧
      (pollAsyncGo fetch 300 5 fuel k).2 = kd - k + 1 := by
  intro fuel
  induction fuel with
  | zero => intro k hk hfuel _; omega
  | succ n ih =>
    intro k hk hfuel hcont
    have hguard : k * 5 < 300 := by omega
    by_cases hkk : k = kd
    · subst hkk
      simp [pollAsyncGo, hguard, hexn]
    · have hklt : k < kd := by omega
      have hc := hcont k le_rfl hklt
      rcases hf : fetch k with _ | ⟨s, loc, body⟩
      · rw [hf] at hc; simp [asyncPending] at hc
      · rw [hf] at hc
        simp [asyncPending] at hc
        have hrec := ih (k + 1) (by omega) (by omega)
          (fun i hi1 hi2 => hcont i (by omega) hi2)
        simp [pollAsyncGo, hguard, hf, hc]
        exact ⟨hrec.1, by omega⟩

theorem pollAsyncGo_timeout (fetch : Nat → HttpResult)
    (hcont : ∀ i, i < 60 → asyncPending (fetch i) = true) :
    ∀ fuel k, 60 - k < fuel →
      (pollAsyncGo fetch 300 5 fuel k).1 = none ∧
      (pollAsyncGo fetch 300 5 fuel k).2 = 60 - k := by
  intro fuel
  induction fuel with
  | zero => intro k hfuel; omega
  | succ n ih =>
    intro k hfuel
    by_cases hk : k < 60
    · have hguard : k * 5 < 300 := by omega
      have hc := hcont k hk
      rcases hf : fetch k with _ | ⟨s, loc, body⟩
      · rw [hf] at hc; simp [asyncPending] at hc
      · rw [hf] at hc
        simp [asyncPending] at hc
        have hrec := ih (k + 1) (by omega)
        simp [pollAsyncGo, hguard, hf, hc]
        exact ⟨hrec.1, by omega⟩
    · have hguard : ¬ (k * 5 < 300) := by omega
      simp [pollAsyncGo, hguard]
      omega

theorem pollAsyncGo_resolved (fetch : Nat → HttpResult) (kd : Nat)
    (loc : Option String) (body : Json) (hkd : kd < 60)
    (hf : fetch kd = .resp 200 loc body) :
    ∀ fuel k, k ≤ kd → kd - k < fuel →
      (∀ i, k ≤ i → i < kd → asyncPending (fetch i) = true) →
      (pollAsyncGo fetch 300 5 fuel k).1 = some body ∧
      (pollAsyncGo fetch 300 5 fuel k).2 = kd - k + 1 := by
  intro fuel
  induction fuel with
  | zero => intro k hk hfuel _; omega
  | succ n ih =>
    intro k hk hfuel hcont
    have hguard : k * 5 < 300 := by omega
    by_cases hkk : k = kd
    · subst hkk
      simp [pollAsyncGo, hguard, hf]
    · have hklt : k < kd := by omega
      have hc := hcont k le_rfl hklt
      rcases hfk : fetch k with _ | ⟨s2, loc2, body2⟩
      · rw [hfk] at hc; simp [asyncPending] at hc
      · rw [hfk] at hc
        simp [asyncPending] at hc
        have hrec := ih (k + 1) (by omega) (by omega)
          (fun i hi1 hi2 => hcont i (by omega) hi2)
        simp [pollAsyncGo, hguard, hfk, hc]
        exact ⟨hrec.1, by omega⟩


/-- One-step unfolding of `pollDeploymentGo` with positive fuel. -/
theorem pollDeploymentGo_succ (fetch : Nat → HttpResult)
    (timeout poll_interval fuel k : Nat) (last_status : Option String) :
    pollDeploymentGo fetch timeout poll_interval (fuel + 1) k last_status =
      (if k * poll_interval < timeout then
        match fetch k with
        | .exn => (none, [], 1)
        | .resp s _ body =>
          if isHttpError s then (none, [], 1)
          else
            let status := provisioningState body
            let notifs := if status == last_status then [] else [status]
            if isTerminal status then (some body, notifs, 1)
            else
              let r := pollDeploymentGo fetch timeout poll_interval fuel (k + 1) status
              (r.1, notifs ++ r.2.1, r.2.2 + 1)
      else (none, [], 0)) := rfl

/-- One-step unfolding of `pollAsyncGo` with positive fuel. -/
theorem pollAsyncGo_succ (fetch : Nat → HttpResult)
    (timeout poll_interval fuel k : Nat) :
    pollAsyncGo fetch timeout poll_interval (fuel + 1) k =
      (if k * poll_interval < timeout then
        match fetch k with
        | .exn => (none, 1)
        | .resp s _ body =>
          if s == 200 then (some body, 1)
          else if s == 202 then
            let r := pollAsyncGo fetch timeout poll_interval fuel (k + 1)
            (r.1, r.2 + 1)
          else (none, 1)
      else (none, 0)) := rfl

/-! Claim theorems. -/

/-- Claim C1: in both poll loops — `_poll_deployment` and
`_poll_async_operation` — if the status fetch of some attempt raises a
transport-level exception after a run of attempts on which the loop
keeps going, the loop returns its failure value (`None`) at once and
the total number of status fetches is exactly the index of the failed
attempt plus one: the failed attempt is never retried and no further
fetch is issued. -/
theorem poll_transport_failure_terminates_immediately
    (fd fa : Nat → HttpResult) (kd ka : Nat)
    (hkd : kd < 180) (hka : ka < 60)
    (hd : ∀ i, i < kd → deployContinues (fd i) = true)
    (ha : ∀ i, i < ka → asyncPending (fa i) = true)
    (hfd : fd kd = .exn) (hfa : fa ka = .exn) :
    ((pollDeployment fd).1 = none ∧ (pollDeployment fd).2.2 = kd + 1) ∧
    ((pollAsync fa).1 = none ∧ (pollAsync fa).2 = ka + 1) := by
  constructor
  · have h := pollDeploymentGo_exn fd kd hkd hfd 1801 0 none (Nat.zero_le _)
      (by omega) (fun i _ h2 => hd i h2)
    simpa [pollDeployment] using h
  · have h := pollAsyncGo_exn fa ka hka hfa 301 0 (Nat.zero_le _)
      (by omega) (fun i _ h2 => ha i h2)
    simpa [pollAsync] using h

/-- Witness for C1: a run of each poll loop whose second fetch raises;
both return `none` after exactly two fetches. -/
theorem poll_transport_failure_terminates_immediately_witness :
    ((pollDeployment exnAfterRunning).1 = none ∧
      (pollDeployment exnAfterRunning).2.2 = 2) ∧
    ((pollAsync exnAfterPending).1 = none ∧
      (pollAsync exnAfterPending).2 = 2) :=
  poll_transport_failure_terminates_immediately exnAfterRunning exnAfterPending
    1 1 (by decide) (by decide) (by decide) (by decide) (by rfl) (by rfl)

/-- Claim C2: `_poll_deployment` at its default budget (1800 s
deadline, 10 s interval) issues at most `ceil(1800 / 10) = 180` status
fetches for every fetch oracle; and when every attempt inside the
deadline window returns a non-terminal state, the loop returns its
timeout value `None` — not the last observed transient state — after
exactly 180 fetches. -/
theorem pollDeployment_fetch_bound_and_timeout
    (f g : Nat → HttpResult)
    (hg : ∀ i, i < 180 → deployContinues (g i) = true) :
    (pollDeployment f).2.2 ≤ 180 ∧
    (pollDeployment g).1 = none ∧ (pollDeployment g).2.2 = 180 := by
  refine ⟨?_, ?_, ?_⟩
  · have h := pollDeploymentGo_count_le f 1801 0 none
    simpa [pollDeployment] using h
  · exact (pollDeploymentGo_timeout g hg 1801 0 none (by omega)).1
  · have h := (pollDeploymentGo_timeout g hg 1801 0 none (by omega)).2
    simpa [pollDeployment] using h

set_option maxRecDepth 8000 in
/-- Witness for C2: with every fetch answering `Running`, the poller
issues exactly 180 fetches and returns `none`. -/
theorem pollDeployment_fetch_bound_and_timeout_witness :
    (pollDeployment alwaysRunning).2.2 ≤ 180 ∧
    (pollDeployment alwaysRunning).1 = none ∧
    (pollDeployment alwaysRunning).2.2 = 180 :=
  pollDeployment_fetch_bound_and_timeout alwaysRunning alwaysRunning (by decide)


/-- Helper: a follow-up poll that, after pending answers, receives a
status that is neither 200 nor 202 returns `none` at that attempt. -/
theorem pollAsyncGo_failedStatus (fetch : Nat → HttpResult) (kd sd : Nat)
    (loc : Option String) (body : Json) (hkd : kd < 60)
    (hf : fetch kd = .resp sd loc body) (h200 : sd ≠ 200) (h202 : sd ≠ 202) :
    ∀ fuel k, k ≤ kd → kd - k < fuel →
      (∀ i, k ≤ i → i < kd → asyncPending (fetch i) = true) →
      (pollAsyncGo fetch 300 5 fuel k).1 = none ∧
      (pollAsyncGo fetch 300 5 fuel k).2 = kd - k + 1 := by
  intro fuel
  induction fuel with
  | zero => intro k hk hfuel _; omega
  | succ n ih =>
    intro k hk hfuel hcont
    have hguard : k * 5 < 300 := by omega
    by_cases hkk : k = kd
    · subst hkk
      simp [pollAsyncGo, hguard, hf, h200, h202]
    · have hklt : k < kd := by omega
      have hc := hcont k le_rfl hklt
      rcases hfk : fetch k with _ | ⟨s2, loc2, body2⟩
      · rw [hfk] at hc; simp [asyncPending] at hc
      · rw [hfk] at hc
        simp [asyncPending] at hc
        have hrec := ih (k + 1) (by omega) (by omega)
          (fun i hi1 hi2 => hcont i (by omega) hi2)
        simp [pollAsyncGo, hguard, hfk, hc]
        exact ⟨hrec.1, by omega⟩

set_option maxRecDepth 8000 in
/-- Counterexample to claim C3: the value both loops return on deadline
expiry is `None`, which is the very value returned for a mid-poll
transport failure (and, in the location-header loop, for a `Failed`
status), so a caller cannot tell a timeout from those failures.  Shown
on explicit runs: an all-`Running` run of `_poll_deployment` that times
out returns the same value as a run whose first fetch raises; an
all-202 run of `_poll_async_operation` that times out returns the same
value as a run whose first fetch raises and as a run whose first fetch
answers 500. -/
theorem poll_timeout_value_counterexample :
    (pollDeployment alwaysRunning).1 = (pollDeployment (fun _ => .exn)).1 ∧
    (pollAsync alwaysPending).1 = (pollAsync (fun _ => .exn)).1 ∧
    (pollAsync alwaysPending).1 =
      (pollAsync (fun _ => .resp 500 none (.obj []))).1 := by
  refine ⟨?_, ?_, ?_⟩ <;> rfl

/-- Claim C3 as amended: the deadline-expiry value `None` is
distinguishable from success and from a `Failed`/`Canceled` terminal
state in the resource-status poller (both return the final response
body, `Some _`), and from a resolved (200) outcome of the
location-header poller; but it is identical to the transport-failure
value in both loops and to the `Failed` (non-200/202 status) value of
the location-header poller, all of which are also `None`. -/
theorem poll_timeout_value_amended
    (g f ftr : Nat → HttpResult) (kd s ktr : Nat)
    (loc : Option String) (body : Json)
    (hg : ∀ i, i < 180 → deployContinues (g i) = true)
    (hkd : kd < 180) (hf : f kd = .resp s loc body)
    (hs : isHttpError s = false)
    (ht : isTerminal (provisioningState body) = true)
    (hpre : ∀ i, i < kd → deployContinues (f i) = true)
    (hktr : ktr < 180) (htr : ftr ktr = .exn)
    (hpretr : ∀ i, i < ktr → deployContinues (ftr i) = true)
    (ga fa ff : Nat → HttpResult) (ka kf sf : Nat)
    (loca : Option String) (bodya : Json) (locf : Option String) (bodyf : Json)
    (hga : ∀ i, i < 60 → asyncPending (ga i) = true)
    (hka : ka < 60) (hfa : fa ka = .resp 200 loca bodya)
    (hprea : ∀ i, i < ka → asyncPending (fa i) = true)
    (hkf : kf < 60) (hff : ff kf = .resp sf locf bodyf)
    (hsf200 : sf ≠ 200) (hsf202 : sf ≠ 202)
    (hpref : ∀ i, i < kf → asyncPending (ff i) = true) :
    (pollDeployment g).1 = none ∧
    (pollDeployment f).1 = some body ∧
    (pollDeployment ftr).1 = none ∧
    (pollAsync ga).1 = none ∧
    (pollAsync fa).1 = some bodya ∧
    (pollAsync ff).1 = none := by
  refine ⟨?_, ?_, ?_, ?_, ?_, ?_⟩
  · exact (pollDeploymentGo_timeout g hg 1801 0 none (by omega)).1
  · exact (pollDeploymentGo_terminal f kd s loc body hkd hf hs ht 1801 0 none
      (Nat.zero_le _) (by omega) (fun i _ h2 => hpre i h2)).1
  · exact (pollDeploymentGo_exn ftr ktr hktr htr 1801 0 none (Nat.zero_le _)
      (by omega) (fun i _ h2 => hpretr i h2)).1
  · exact (pollAsyncGo_timeout ga hga 301 0 (by omega)).1
  · exact (pollAsyncGo_resolved fa ka loca bodya hka hfa 301 0 (Nat.zero_le _)
      (by omega) (fun i _ h2 => hprea i h2)).1
  · exact (pollAsyncGo_failedStatus ff kf sf locf bodyf hkf hff hsf200 hsf202
      301 0 (Nat.zero_le _) (by omega) (fun i _ h2 => hpref i h2)).1

set_option maxRecDepth 8000 in
/-- Witness for the amended C3: concrete timing-out, terminal-`Failed`,
transport-failing, resolved and failed-status runs. -/
theorem poll_timeout_value_amended_witness :
    (pollDeployment alwaysRunning).1 = none ∧
    (pollDeployment (fun _ => .resp 200 none failedBody)).1 = some failedBody ∧
    (pollDeployment (fun _ => .exn)).1 = none ∧
    (pollAsync alwaysPending).1 = none ∧
    (pollAsync (fun _ => .resp 200 none (.obj []))).1 = some (.obj []) ∧
    (pollAsync (fun _ => .resp 500 none (.obj []))).1 = none :=
  poll_timeout_value_amended alwaysRunning (fun _ => .resp 200 none failedBody)
    (fun _ => .exn) 0 200 0 none failedBody (by decide) (by decide) (by rfl)
    (by decide) (by decide) (by decide) (by decide) (by rfl) (by decide)
    alwaysPending (fun _ => .resp 200 none (.obj []))
    (fun _ => .resp 500 none (.obj [])) 0 0 500 none (.obj []) none (.obj [])
    (by decide) (by decide) (by rfl) (by decide) (by decide) (by rfl)
    (by decide) (by decide) (by decide)


/-- Claim C4: from any configuration of the `_poll_deployment` loop
whose current fetch yields a non-raising response, the loop ends on
that fetch (exactly one fetch is issued from the configuration) if and
only if the fetched provisioning state is in the terminal set
Succeeded/Failed/Canceled, in which case the fetched body is returned;
a fetched state differing from the previously observed one triggers a
progress notification (it heads the notifications emitted from the
configuration) but never by itself ends the loop; and any body the
loop ever returns carries a terminal state.  `k + 1 < 180` keeps the
next attempt inside the deadline window and `fuel + 2` keeps the
modelling fuel from being what stops the loop. -/
theorem pollDeployment_exit_iff_terminal
    (f : Nat → HttpResult) (fuel k : Nat) (last : Option String)
    (s : Nat) (loc : Option String) (body : Json)
    (hk : k + 1 < 180) (hf : f k = .resp s loc body)
    (hs : isHttpError s = false) :
    ((pollDeploymentGo f 1800 10 (fuel + 2) k last).2.2 = 1 ↔
      isTerminal (provisioningState body) = true) ∧
    ((provisioningState body == last) = false →
      (pollDeploymentGo f 1800 10 (fuel + 2) k last).2.1.head? =
        some (provisioningState body)) ∧
    (isTerminal (provisioningState body) = true →
      (pollDeploymentGo f 1800 10 (fuel + 2) k last).1 = some body) ∧
    (∀ b, (pollDeploymentGo f 1800 10 (fuel + 2) k last).1 = some b →
      isTerminal (provisioningState b) = true) := by
  have hguard : k * 10 < 1800 := by omega
  have hguard2 : (k + 1) * 10 < 1800 := by omega
  by_cases ht : isTerminal (provisioningState body) = true
  · refine ⟨?_, ?_, ?_, ?_⟩
    · simp [pollDeploymentGo, hguard, hf, hs, ht]
    · intro hne
      simp [pollDeploymentGo, hguard, hf, hs, ht, hne]
    · intro _
      simp [pollDeploymentGo, hguard, hf, hs, ht]
    · intro b hb
      exact pollDeploymentGo_some_isTerminal f (fuel + 2) k last b hb
  · have hcnt := pollDeploymentGo_count_pos f fuel (k + 1) (provisioningState body)
      hguard2
    refine ⟨?_, ?_, ?_, ?_⟩
    · constructor
      · intro h1
        exfalso
        rw [pollDeploymentGo_succ] at h1
        simp [hguard, hf, hs, ht] at h1
        omega
      · intro h; exact absurd h ht
    · intro hne
      simp [pollDeploymentGo, hguard, hf, hs, ht, hne]
    · intro h; exact absurd h ht
    · intro b hb
      exact pollDeploymentGo_some_isTerminal f (fuel + 2) k last b hb

/-- Witness for C4: a `Running` fetch does not end the loop though it
changed the observed state (it only heads the notifications), while a
`Succeeded` fetch returns the body. -/
theorem pollDeployment_exit_iff_terminal_witness :
    ((pollDeploymentGo alwaysRunning 1800 10 2 0 none).2.2 = 1 ↔
      isTerminal (provisioningState runningBody) = true) ∧
    (pollDeploymentGo (fun _ => .resp 200 none succeededBody) 1800 10 2 0 none).1 =
      some succeededBody ∧
    (pollDeploymentGo alwaysRunning 1800 10 2 0 none).2.1.head? =
      some (provisioningState runningBody) :=
  ⟨(pollDeployment_exit_iff_terminal alwaysRunning 0 0 none 200 none runningBody
      (by decide) (by rfl) (by rfl)).1,
   (pollDeployment_exit_iff_terminal (fun _ => .resp 200 none succeededBody) 0 0
      none 200 none succeededBody (by decide) (by rfl) (by rfl)).2.2.1 (by rfl),
   (pollDeployment_exit_iff_terminal alwaysRunning 0 0 none 200 none runningBody
      (by decide) (by rfl) (by rfl)).2.1 (by rfl)⟩

/-- Claim C5: in the `_poll_async_operation` loop at its default budget
(300 s deadline, 5 s inter-poll delay, modelled as the loop guard
`k * 5 < 300`), a fetch answering 202 continues the loop (at least one
further fetch is issued), a fetch answering 200 terminates it at once
with the response payload, a fetch answering any other status
terminates it at once with no payload, and a run in which every answer
within the deadline is 202 stops after exactly `300 / 5 = 60` fetches
with no payload. -/
theorem pollAsync_step_and_deadline
    (f g : Nat → HttpResult) (fuel k sc : Nat) (loc : Option String) (body : Json)
    (hk : k + 1 < 60) (hf : f k = .resp sc loc body)
    (hg : ∀ i, i < 60 → asyncPending (g i) = true) :
    (sc = 200 → pollAsyncGo f 300 5 (fuel + 2) k = (some body, 1)) ∧
    (sc = 202 → 2 ≤ (pollAsyncGo f 300 5 (fuel + 2) k).2) ∧
    (sc ≠ 200 → sc ≠ 202 → pollAsyncGo f 300 5 (fuel + 2) k = (none, 1)) ∧
    ((pollAsync g).1 = none ∧ (pollAsync g).2 = 60) := by
  have hguard : k * 5 < 300 := by omega
  have hguard2 : (k + 1) * 5 < 300 := by omega
  refine ⟨?_, ?_, ?_, ?_, ?_⟩
  · intro h200
    subst h200
    simp [pollAsyncGo, hguard, hf]
  · intro h202
    subst h202
    have hcnt := pollAsyncGo_count_pos f fuel (k + 1) hguard2
    rw [pollAsyncGo_succ]
    simp [hguard, hf]
    omega
  · intro h200 h202
    simp [pollAsyncGo, hguard, hf, h200, h202]
  · exact (pollAsyncGo_timeout g hg 301 0 (by omega)).1
  · have h := (pollAsyncGo_timeout g hg 301 0 (by omega)).2
    simpa [pollAsync] using h

set_option maxRecDepth 8000 in
/-- Witness for C5: a 200 answer returns the payload after one fetch, a
202 answer leads to a further fetch, a 500 answer returns no payload
after one fetch, and the all-202 run stops after 60 fetches. -/
theorem pollAsync_step_and_deadline_witness :
    pollAsyncGo (fun _ => .resp 200 none (.obj [("ok", .bool true)])) 300 5 2 0 =
      (some (.obj [("ok", .bool true)]), 1) ∧
    2 ≤ (pollAsyncGo alwaysPending 300 5 2 0).2 ∧
    pollAsyncGo (fun _ => .resp 500 none (.obj [])) 300 5 2 0 = (none, 1) ∧
    (pollAsync alwaysPending).1 = none ∧ (pollAsync alwaysPending).2 = 60 :=
  ⟨(pollAsync_step_and_deadline (fun _ => .resp 200 none (.obj [("ok", .bool true)]))
      alwaysPending 0 0 200 none (.obj [("ok", .bool true)]) (by decide) (by rfl)
      (by decide)).1 rfl,
   (pollAsync_step_and_deadline alwaysPending alwaysPending 0 0 202 none (.obj [])
      (by decide) (by rfl) (by decide)).2.1 rfl,
   (pollAsync_step_and_deadline (fun _ => .resp 500 none (.obj [])) alwaysPending
      0 0 500 none (.obj []) (by decide) (by rfl) (by decide)).2.2.1
      (by decide) (by decide),
   (pollAsync_step_and_deadline alwaysPending alwaysPending 0 0 202 none (.obj [])
      (by decide) (by rfl) (by decide)).2.2.2⟩


/-- Counterexample to claim C6: `check_resource_group_exists` answers
the boolean `false` — the same value as for a not-found (404) lookup —
for a 500 server-error response and for a raised transport exception,
instead of surfacing those failures as errors; so `false` is not
returned exactly on not-found. -/
theorem check_resource_group_exists_counterexample :
    check_resource_group_exists (.resp 500 none (.obj [])) = false ∧
    check_resource_group_exists .exn = false ∧
    check_resource_group_exists (.resp 404 none (.obj [])) = false := by
  refine ⟨rfl, rfl, rfl⟩

/-- Claim C6 as amended: the container-existence check returns `true`
exactly when the lookup answers HTTP 200; every other outcome — 404,
any other status (including auth failures and 5xx), or a raised
transport exception — yields the boolean `false`, and no lookup failure
is surfaced as an error. -/
theorem check_resource_group_exists_amended (r : HttpResult) :
    check_resource_group_exists r = true ↔
      ∃ loc body, r = .resp 200 loc body := by
  cases r with
  | exn => simp [check_resource_group_exists]
  | resp s loc body =>
    constructor
    · intro h
      have hs : s = 200 := by
        simpa [check_resource_group_exists] using h
      exact ⟨loc, body, by rw [hs]⟩
    · rintro ⟨l, b, heq⟩
      injection heq with h1 h2 h3
      subst h1
      rfl

/-- Claim C8: `authenticate` attempts the fallback
`DefaultAzureCredential` exactly when the primary `AzureCliCredential`
attempt raises the authentication-specific `ClientAuthenticationError`;
any other exception from the primary makes `authenticate` report
failure (return `False`) without attempting the fallback, and a primary
success never touches the fallback. -/
theorem authenticate_fallback_policy (p f : TokenOutcome) :
    ((authenticateTrace p f).2 = true ↔ p = .authError) ∧
    (p = .otherError → authenticateTrace p f = (false, false)) ∧
    (∀ t, p = .token t → authenticateTrace p f = (true, false)) := by
  cases p <;> cases f <;> simp [authenticateTrace]

/-- Helper: stripping the ARM `value` wrapper from every entry of a
wrapped parameter mapping recovers the flat mapping. -/
theorem unwrap_value_map (l : List (String × Json)) :
    (l.map (fun kv => (kv.1, Json.obj [("value", kv.2)]))).map
      (fun kv => (kv.1, (kv.2.lookup "value").getD .null)) = l := by
  induction l with
  | nil => rfl
  | cons hd tl ih =>
    simp only [List.map_cons, ih]
    rfl

/-- Helper: every entry value of a wrapped parameter mapping is a
mapping. -/
theorem wrapped_all_isObj (l : List (String × Json)) :
    (l.map (fun kv => (kv.1, Json.obj [("value", kv.2)]))).all
      (fun kv => kv.2.isObj) = true := by
  induction l with
  | nil => rfl
  | cons hd tl ih => simp [Json.isObj, ih]

/-- Claim C9: `load_parameters` normalizes the wrapped ARM shape — a
document whose single `parameters` key maps each name to a mapping
wrapping its value under `value` — to the flat name-to-value mapping,
and returns any mapping document without a top-level `parameters` key
unchanged. -/
theorem load_parameters_normalization
    (wrapped flat : List (String × Json))
    (hnokey : flat.any (fun kv => kv.1 == "parameters") = false) :
    load_parameters (.obj [("parameters",
        .obj (wrapped.map (fun kv => (kv.1, .obj [("value", kv.2)]))))]) =
      some (.obj wrapped) ∧
    load_parameters (.obj flat) = some (.obj flat) := by
  constructor
  · simp [load_parameters, List.lookup]
    constructor
    · intro a b _
      rfl
    · rw [← List.map_map]
      exact unwrap_value_map wrapped
  · simp [load_parameters, hnokey]

/-- Witness for C9: the spec's two examples — the wrapped document with
`x` mapped to value 5 flattens to the direct mapping, and the direct
mapping passes through unchanged. -/
theorem load_parameters_normalization_witness :
    load_parameters
        (.obj [("parameters", .obj [("x", .obj [("value", .num 5)])])]) =
      some (.obj [("x", .num 5)]) ∧
    load_parameters (.obj [("x", .num 5)]) = some (.obj [("x", .num 5)]) :=
  load_parameters_normalization [("x", Json.num 5)] [("x", Json.num 5)]
    (by decide)

/-- Claim C10: a what-if submission answered 202 with no `Location`
header makes `validate_deployment` return `False` without issuing a
single poll fetch, although the submission response itself was not an
error. -/
theorem validate_deployment_202_no_location
    (body : Json) (pollFetch : Nat → HttpResult) :
    validate_deployment (.resp 202 none body) pollFetch = (false, 0) := rfl


/-- Counterexample to claim C7: in what-if mode `main` ignores the
result of `validate_deployment`, so a run whose validation submission
fails with a transport exception — a fatal error of the submission
stage of the selected operation — still exits with code 0. -/
theorem main_exit_code_counterexample :
    main whatIfFailEnv = 0 ∧
    validate_deployment whatIfFailEnv.submit_http whatIfFailEnv.poll_fetch =
      (false, 0) := by
  refine ⟨rfl, rfl⟩

/-- Claim C7 as amended: `main` exits 0 or 1; it exits 1 exactly on a
fatal error in subscription-id resolution, authentication, parameter
loading, resource-group provisioning, or template compilation, or — in
deploy mode only — when `deploy_template` fails (submission error,
remote failure, transport failure mid-poll, or poll timeout); in
what-if mode the validation outcome is ignored, and `main` exits 0
whenever all stages before the validation call succeed. -/
theorem main_exit_code_amended (e : MainEnv) :
    (main e = 0 ∨ main e = 1) ∧
    (main e = 0 ↔ preStagesOk e = true ∧
      (e.what_if = true ∨
        (deploy_template e.submit_http e.poll_fetch).isSome = true)) := by
  unfold main preStagesOk
  rcases resolve_subscription_id e.subscription_id_arg e.az_account_show with _ | sid
  · simp
  · rcases hauth : (authenticateTrace e.primary e.fallback).1 with _ | _
    · simp [hauth]
    · rcases hpf : e.parameter_file_exists with _ | _
      · simp [hauth, hpf]
      · rcases hparams : e.parameter_doc.bind load_parameters with _ | params
        · simp [hauth, hpf, hparams]
        · rcases params with _ | b | n | st | elts | fields
          · simp [hauth, hpf, hparams]
          · simp [hauth, hpf, hparams]
          · simp [hauth, hpf, hparams]
          · simp [hauth, hpf, hparams]
          · simp [hauth, hpf, hparams]
          · rcases hrg : check_resource_group_exists e.rg_lookup with _ | _
            · rcases hcr : create_resource_group e.rg_create with _ | _
              · simp [hauth, hpf, hparams, hrg, hcr]
              · rcases hbicep : e.bicep_file_exists with _ | _
                · simp [hauth, hpf, hparams, hrg, hcr, hbicep]
                · rcases hcomp : e.compile_result with _ | tmpl
                  · simp [hauth, hpf, hparams, hrg, hcr, hbicep, hcomp]
                  · rcases hwi : e.what_if with _ | _
                    · rcases hdep : deploy_template e.submit_http e.poll_fetch
                        with _ | r
                      · simp [hauth, hpf, hparams, hrg, hcr, hbicep, hcomp,
                          hwi, hdep]
                      · simp [hauth, hpf, hparams, hrg, hcr, hbicep, hcomp,
                          hwi, hdep]
                    · simp [hauth, hpf, hparams, hrg, hcr, hbicep, hcomp, hwi]
            · rcases hbicep : e.bicep_file_exists with _ | _
              · simp [hauth, hpf, hparams, hrg, hbicep]
              · rcases hcomp : e.compile_result with _ | tmpl
                · simp [hauth, hpf, hparams, hrg, hbicep, hcomp]
                · rcases hwi : e.what_if with _ | _
                  · rcases hdep : deploy_template e.submit_http e.poll_fetch
                      with _ | r
                    · simp [hauth, hpf, hparams, hrg, hbicep, hcomp, hwi, hdep]
                    · simp [hauth, hpf, hparams, hrg, hbicep, hcomp, hwi, hdep]
                  · simp [hauth, hpf, hparams, hrg, hbicep, hcomp, hwi]


/-- Witness for the amended C6: a 200 lookup response makes the check
return `true`. -/
theorem check_resource_group_exists_amended_witness :
    check_resource_group_exists (.resp 200 none (.obj [])) = true :=
  (check_resource_group_exists_amended (.resp 200 none (.obj []))).mpr
    ⟨none, .obj [], rfl⟩

/-- Witness for the amended C7: in the concrete what-if environment
whose validation submission raises, the exit code is 0 and the
characterization applies. -/
theorem main_exit_code_amended_witness :
    (main whatIfFailEnv = 0 ∨ main whatIfFailEnv = 1) ∧
    (main whatIfFailEnv = 0 ↔ preStagesOk whatIfFailEnv = true ∧
      (whatIfFailEnv.what_if = true ∨
        (deploy_template whatIfFailEnv.submit_http
          whatIfFailEnv.poll_fetch).isSome = true)) :=
  main_exit_code_amended whatIfFailEnv

/-- Witness for C8: a non-authentication failure of the primary
credential yields `(false, false)` — failure with no fallback attempt —
even though the fallback would have succeeded, and the fallback is
attempted on a primary `ClientAuthenticationError`. -/
theorem authenticate_fallback_policy_witness :
    authenticateTrace .otherError (.token "x") = (false, false) ∧
    ((authenticateTrace .authError (.token "x")).2 = true ↔
      TokenOutcome.authError = .authError) :=
  ⟨(authenticate_fallback_policy .otherError (.token "x")).2.1 rfl,
   (authenticate_fallback_policy .authError (.token "x")).1⟩

/-- Witness for C10: a concrete 202-without-Location submission yields
`(false, 0)`. -/
theorem validate_deployment_202_no_location_witness :
    validate_deployment (.resp 202 none (.obj [])) (fun _ => .exn) =
      (false, 0) :=
  validate_deployment_202_no_location (.obj []) (fun _ => .exn)

end DeployRest
